import Mathlib

/-!
Shallow embedding of the Timer/Alarm subsystem of `timer_alarm.py`
(the `TimerAlarmManager` registry, the tool entry points `set_timer`,
`set_alarm`, `check_timers_alarms`, `cancel_timer_alarm`, and the firing
callbacks `timer_callback` / `alarm_callback`).

Modelling conventions:
* Wall-clock instants (`time.time()`, `datetime.datetime.now()`) are integers
  counting seconds; the local timezone is abstracted away (a `datetime` is its
  number of seconds since the epoch of the model).  `now.date()` is floor
  division by 86400, exactly as Python's calendar arithmetic floors.
* Python dicts (`self.timers`, `self.alarms`) are association lists in
  insertion order with unique keys maintained by dict semantics: assignment
  to an existing key overwrites in place, to a fresh key appends.
* An `asyncio` task handle is a pair of booleans `done`/`cancelled`;
  `Future.cancel()` on a not-done handle sets `cancelled`.
* Exceptions are represented by boolean outcomes: the firing callbacks take a
  flag saying whether the delivery step (`send_stt_message` and the executor
  submission) raises, and return what the surrounding `try/except` turns that
  into.  The connection object is represented by the one bit the code reads:
  the truthiness of `conn.websocket`.
-/

/-- An `asyncio` task handle: `done` mirrors `task.done()`, `cancelled`
records that `task.cancel()` was called before completion. -/
structure TaskHandle where
  done : Bool
  cancelled : Bool
deriving DecidableEq

/-- One entry of `TimerAlarmManager.timers`
(`{duration, start_time, end_time, label, task}`, lines 175-181). -/
structure Timer where
  duration : Int
  start_time : Int
  end_time : Int
  label : Option String
  task : Option TaskHandle
deriving DecidableEq

/-- One entry of `TimerAlarmManager.alarms`
(`{hour, minute, day_offset, time, label, task}`, lines 199-206). -/
structure Alarm where
  hour : Int
  minute : Int
  day_offset : Int
  time : Int
  label : Option String
  task : Option TaskHandle
deriving DecidableEq

/-- The `TimerAlarmManager` singleton's mutable state (lines 161-162). -/
structure Manager where
  timers : List (String × Timer)
  alarms : List (String × Alarm)
deriving DecidableEq

/-- Dict lookup `d[k]` / `k in d`: first (only) binding of `k`. -/
def lookupKey {α : Type} (k : String) : List (String × α) → Option α
  | [] => none
  | p :: rest => if p.1 = k then some p.2 else lookupKey k rest

/-- Dict deletion `del d[k]`: drop the binding of `k`, keep every other
binding in order. -/
def eraseKey {α : Type} (k : String) (l : List (String × α)) : List (String × α) :=
  l.filter (fun p => decide (p.1 ≠ k))

/-- Whether `k in d` holds. -/
def containsKey {α : Type} (k : String) (l : List (String × α)) : Bool :=
  l.any (fun p => decide (p.1 = k))

/-- Dict assignment `d[k] = v`: overwrite in place if `k` is present
(dict keys are unique), append otherwise. -/
def setKey {α : Type} (k : String) (v : α) (l : List (String × α)) : List (String × α) :=
  if containsKey k l then l.map (fun p => if p.1 = k then (k, v) else p)
  else l ++ [(k, v)]

/-- `manager.timers[timer_id]["task"] = task` (line 398). -/
def setTimerTask (k : String) (tk : Option TaskHandle) (l : List (String × Timer)) :
    List (String × Timer) :=
  l.map (fun p => if p.1 = k then (p.1, { p.2 with task := tk }) else p)

/-- `manager.alarms[alarm_id]["task"] = task` (line 474). -/
def setAlarmTask (k : String) (tk : Option TaskHandle) (l : List (String × Alarm)) :
    List (String × Alarm) :=
  l.map (fun p => if p.1 = k then (p.1, { p.2 with task := tk }) else p)

/-- `if timer["task"] and not timer["task"].done(): timer["task"].cancel()`
(lines 215-216, 223-224, 235-236, 243-244, 259-260). -/
def cancelHandle : Option TaskHandle → Option TaskHandle
  | some tk => if tk.done then some tk else some { tk with cancelled := true }
  | none => none

/-- Python truthiness of an optional-string argument (`if timer_id:`). -/
def pyTruthy : Option String → Bool
  | none => false
  | some s => decide (s ≠ "")

/-- `f"timer_{int(time.time())}_{len(self.timers)}"` (line 171). -/
def timerIdGen (now : Int) (count : Nat) : String :=
  "timer_" ++ toString now ++ "_" ++ toString count

/-- `f"alarm_{int(time.time())}_{len(self.alarms)}"` (line 187). -/
def alarmIdGen (now : Int) (count : Nat) : String :=
  "alarm_" ++ toString now ++ "_" ++ toString count

/-- `now.date()` as a day number: floor of seconds / 86400. -/
def dateOf (t : Int) : Int :=
  Int.fdiv t 86400

/-- `datetime.datetime.combine(date, datetime.time(hour, minute))`. -/
def combine (d hour minute : Int) : Int :=
  d * 86400 + hour * 3600 + minute * 60

/-- Target-instant computation of `TimerAlarmManager.add_alarm`
(lines 189-197): combine today + day_offset with hour:minute, and if that
instant is strictly in the past and `day_offset == 0`, recombine with
tomorrow's date instead. -/
def alarmTargetTime (now hour minute day_offset : Int) : Int :=
  let target_date := dateOf now + day_offset
  let target_time := combine target_date hour minute
  if target_time < now ∧ day_offset = 0 then
    combine (dateOf now + 1) hour minute
  else target_time

/-- `TimerAlarmManager.add_timer` (lines 169-183): generate the id from the
current integer second and the current dict size, store the entry with
`end_time = start_time + duration` and no task yet, return the id. -/
def Manager.add_timer (m : Manager) (now : Int) (duration : Int) (label : Option String) :
    Manager × String :=
  let timer_id := timerIdGen now m.timers.length
  let start_time := now
  let end_time := start_time + duration
  let t : Timer := { duration := duration, start_time := start_time, end_time := end_time,
                     label := label, task := none }
  ({ m with timers := setKey timer_id t m.timers }, timer_id)

/-- `TimerAlarmManager.add_alarm` (lines 185-208). -/
def Manager.add_alarm (m : Manager) (now hour minute day_offset : Int) (label : Option String) :
    Manager × String :=
  let alarm_id := alarmIdGen now m.alarms.length
  let a : Alarm := { hour := hour, minute := minute, day_offset := day_offset,
                     time := alarmTargetTime now hour minute day_offset,
                     label := label, task := none }
  ({ m with alarms := setKey alarm_id a m.alarms }, alarm_id)

/-- `TimerAlarmManager.cancel_timer` (lines 210-228).  With no id: cancel
every live handle, `self.timers.clear()`, and return `len(self.timers) > 0`
computed on the already-cleared dict (the handle cancellations act on entries
that are discarded with the cleared dict, so only the emptied dict and the
return value are observable).  With an id: if present, cancel its handle,
delete it and return `True`; otherwise return `False`. -/
def Manager.cancel_timer (m : Manager) (timer_id : Option String) : Manager × Bool :=
  match timer_id with
  | none =>
    let cleared := { m with timers := ([] : List (String × Timer)) }
    (cleared, decide (cleared.timers.length > 0))
  | some tid =>
    match lookupKey tid m.timers with
    | some _ => ({ m with timers := eraseKey tid m.timers }, true)
    | none => (m, false)

/-- `TimerAlarmManager.cancel_alarm` (lines 230-248), mirror of
`cancel_timer`. -/
def Manager.cancel_alarm (m : Manager) (alarm_id : Option String) : Manager × Bool :=
  match alarm_id with
  | none =>
    let cleared := { m with alarms := ([] : List (String × Alarm)) }
    (cleared, decide (cleared.alarms.length > 0))
  | some aid =>
    match lookupKey aid m.alarms with
    | some _ => ({ m with alarms := eraseKey aid m.alarms }, true)
    | none => (m, false)

/-- The scan of `TimerAlarmManager.get_timers` (lines 253-261): split the
stored timers into the still-active ones (`end_time > now`, kept and
returned) and the expired ones (handle cancelled if present and not done,
entry deleted).  The second component is the list of deleted entries with
their handles as they stand after the `cancel()` call; it records the loop's
`else` branch, which is otherwise invisible in the resulting state. -/
def pruneScan (now : Int) : List (String × Timer) → List (String × Timer) × List (String × Timer)
  | [] => ([], [])
  | p :: rest =>
    let s := pruneScan now rest
    if p.2.end_time > now then (p :: s.1, s.2)
    else (s.1, (p.1, { p.2 with task := cancelHandle p.2.task }) :: s.2)

/-- `TimerAlarmManager.get_timers` (lines 250-263): returns the dict of
active timers, the manager after the lazy prune, and (instrumentation) the
entries removed by the prune. -/
def Manager.get_timers (m : Manager) (now : Int) :
    List (String × Timer) × Manager × List (String × Timer) :=
  let s := pruneScan now m.timers
  (s.1, { m with timers := s.1 }, s.2)

/-- `TimerAlarmManager.get_alarms` (lines 265-267): all alarms, unfiltered. -/
def Manager.get_alarms (m : Manager) : List (String × Alarm) :=
  m.alarms

/-- What a firing-callback invocation did.  `found` is the guard
`timer_id in manager.timers`; `delivered` records that `send_stt_message`
completed; `routed` that the message was handed to `conn.executor.submit`
(either conversational mode); `removed` that the `del` of the entry ran;
`errorCaught` that an exception reached the callback's `except` clause and
was logged instead of propagating; `message` is the reminder text built at
lines 277-280 / 307-310 (empty when the entry was absent). -/
structure FireOutcome where
  found : Bool
  delivered : Bool
  routed : Bool
  removed : Bool
  errorCaught : Bool
  message : String
deriving DecidableEq

/-- `timer_callback` (lines 269-297).  `hasWebsocket` is the truthiness of
`hasattr(conn, 'websocket') and conn.websocket`; `sendRaises` says whether
the delivery block (`send_stt_message` / executor submission) raises.  The
`del` of the entry sits after the delivery block inside the same `try`, so a
delivery exception jumps to the `except` clause before the `del` runs. -/
def timer_callback (m : Manager) (timer_id : String) (hasWebsocket sendRaises : Bool) :
    Manager × FireOutcome :=
  match lookupKey timer_id m.timers with
  | none => (m, ⟨false, false, false, false, false, ""⟩)
  | some timer =>
    let message :=
      match timer.label with
      | some l => "您设置的 " ++ l ++ " 计时器时间到了！"
      | none => "您设置的计时器时间到了！"
    if hasWebsocket then
      if sendRaises then (m, ⟨true, false, false, false, true, message⟩)
      else ({ m with timers := eraseKey timer_id m.timers }, ⟨true, true, true, true, false, message⟩)
    else ({ m with timers := eraseKey timer_id m.timers }, ⟨true, false, false, true, false, message⟩)

/-- `alarm_callback` (lines 299-327), mirror of `timer_callback` over the
alarms dict; the unlabelled message embeds the alarm's stored hour and
minute. -/
def alarm_callback (m : Manager) (alarm_id : String) (hasWebsocket sendRaises : Bool) :
    Manager × FireOutcome :=
  match lookupKey alarm_id m.alarms with
  | none => (m, ⟨false, false, false, false, false, ""⟩)
  | some alarm =>
    let message :=
      match alarm.label with
      | some l => "您设置的" ++ l ++ "闹钟时间到了！"
      | none => "闹钟时间到了！现在是" ++ toString alarm.hour ++ "点" ++ toString alarm.minute ++ "分。"
    if hasWebsocket then
      if sendRaises then (m, ⟨true, false, false, false, true, message⟩)
      else ({ m with alarms := eraseKey alarm_id m.alarms }, ⟨true, true, true, true, false, message⟩)
    else ({ m with alarms := eraseKey alarm_id m.alarms }, ⟨true, false, false, true, false, message⟩)

/-- `format_time_duration` (lines 329-347).  `//` and `%` are Python floor
division and modulo. -/
def format_time_duration (seconds : Int) : String :=
  if seconds < 60 then toString seconds ++ "秒"
  else if seconds < 3600 then
    let minutes := Int.fdiv seconds 60
    let seconds := Int.emod seconds 60
    if seconds = 0 then toString minutes ++ "分钟"
    else toString minutes ++ "分钟" ++ toString seconds ++ "秒"
  else
    let hours := Int.fdiv seconds 3600
    let minutes := Int.fdiv (Int.emod seconds 3600) 60
    let seconds := Int.emod seconds 60
    if minutes = 0 ∧ seconds = 0 then toString hours ++ "小时"
    else if seconds = 0 then toString hours ++ "小时" ++ toString minutes ++ "分钟"
    else toString hours ++ "小时" ++ toString minutes ++ "分钟" ++ toString seconds ++ "秒"

/-- `format_day_text` (lines 349-358). -/
def format_day_text (day_offset : Int) : String :=
  if day_offset = 0 then "今天"
  else if day_offset = 1 then "明天"
  else if day_offset = 2 then "后天"
  else toString day_offset ++ "天后"

/-- One step of Python `str.replace`, fuelled by the remaining length so the
recursion is structural: at each position, if the (non-empty) pattern matches
here, emit the replacement and skip the pattern, else keep one character. -/
def startsWithL : List Char → List Char → Bool
  | [], _ => true
  | _ :: _, [] => false
  | p :: ps, c :: cs => p == c && startsWithL ps cs

/-- Fuelled worker for `pyReplace`. -/
def replaceFuel (pat repl : List Char) : Nat → List Char → List Char
  | 0, l => l
  | _ + 1, [] => []
  | fuel + 1, c :: cs =>
    if pat ≠ [] ∧ startsWithL pat (c :: cs) then
      repl ++ replaceFuel pat repl fuel (List.drop (pat.length - 1) cs)
    else c :: replaceFuel pat repl fuel cs

/-- Python `s.replace(pat, repl)`: replace every (leftmost, non-overlapping)
occurrence of `pat` in `s` by `repl`. -/
def pyReplace (s pat repl : String) : String :=
  ⟨replaceFuel pat.data repl.data s.data.length s.data⟩

/-- Two-digit zero padding, Python `f"{n:02d}"` and the fields of
`time.strftime`. -/
def twoDigits (n : Int) : String :=
  if n < 10 then "0" ++ toString n else toString n

/-- `time.strftime("%H:%M:%S", time.localtime(t))` with the local timezone
abstracted to the model's epoch. -/
def formatClock (t : Int) : String :=
  let s := Int.emod t 86400
  twoDigits (Int.fdiv s 3600) ++ ":" ++ twoDigits (Int.fdiv (Int.emod s 3600) 60) ++ ":" ++
    twoDigits (Int.emod s 60)

/-- The `action` tag of `plugins_func.register.ActionResponse` (named
`Action` in the source; renamed here to avoid clashing with a library name);
only `RESPONSE` is used by this module. -/
inductive ToolAction where
  | RESPONSE
deriving DecidableEq

/-- `plugins_func.register.ActionResponse`. -/
structure ActionResponse where
  action : ToolAction
  result : String
  response : String
deriving DecidableEq

/-- What the Engine actually schedules for one created entry.
`submit_delay` is the delay, in seconds from "now", after which the firing
coroutine becomes runnable on the connection's event loop:
`asyncio.run_coroutine_threadsafe(callback, conn.loop)` (lines 384-387,
460-463) submits the coroutine for immediate execution, so the source's
value is `0`.  `pacing_sleep` is the `time.sleep` duration of the daemon
thread started next to it (lines 390-395, 466-471); that thread does nothing
after waking, so it has no observable effect on the callback. -/
structure ScheduledAction where
  submit_delay : Int
  pacing_sleep : Int
deriving DecidableEq

/-- Follows the spec's words (§4.2), for comparison with the source's
scheduling: "the Engine schedules a deferred action ... computed as
`max(0, target_instant - now)` seconds of delay". -/
def specEngineDelay (target now : Int) : Int :=
  max 0 (target - now)

/-- `set_timer` (lines 360-423).  Returns the manager after the call, the
scheduled action (`none` when validation failed and nothing was scheduled)
and the `ActionResponse`.  The fresh task handle saved into the entry is
not-done, not-cancelled. -/
def set_timer (m : Manager) (now : Int) (duration : Int)
    (response_success response_failure : String) (label : Option String) :
    Manager × Option ScheduledAction × ActionResponse :=
  if duration ≤ 0 then
    (m, none, ⟨ToolAction.RESPONSE, "无效的持续时间", "计时器的持续时间必须大于0秒。"⟩)
  else
    let r := m.add_timer now duration label
    let m1 := r.1
    let timer_id := r.2
    let end_time := now + duration
    let end_time_str := formatClock end_time
    let duration_text := format_time_duration duration
    let task : TaskHandle := ⟨false, false⟩
    let sched : ScheduledAction := ⟨0, duration⟩
    let m2 := { m1 with timers := setTimerTask timer_id (some task) m1.timers }
    let response := pyReplace response_success "\x7bduration\x7d" duration_text
    let response := pyReplace response "\x7bend_time\x7d" end_time_str
    let response :=
      match label with
      | some l => pyReplace response "\x7blabel\x7d" l
      | none => pyReplace (pyReplace response "\x7blabel\x7d" "") "\x7blabel\x7d" ""
    (m2, some sched, ⟨ToolAction.RESPONSE, "计时器已设置: " ++ duration_text, response⟩)

/-- `set_alarm` (lines 425-503).  `time_diff` is
`(alarm["time"] - datetime.datetime.now()).total_seconds()` (line 457); the
coroutine is again submitted immediately while the daemon thread sleeps
`time_diff` to no effect. -/
def set_alarm (m : Manager) (now : Int) (hour minute : Int)
    (response_success response_failure : String) (day_offset : Int) (label : Option String) :
    Manager × Option ScheduledAction × ActionResponse :=
  if ¬(0 ≤ hour ∧ hour ≤ 23) then
    (m, none, ⟨ToolAction.RESPONSE, "无效的小时", "小时必须在0到23之间。"⟩)
  else if ¬(0 ≤ minute ∧ minute ≤ 59) then
    (m, none, ⟨ToolAction.RESPONSE, "无效的分钟", "分钟必须在0到59之间。"⟩)
  else if day_offset < 0 then
    (m, none, ⟨ToolAction.RESPONSE, "无效的天数偏移", "天数偏移必须大于或等于0。"⟩)
  else
    let r := m.add_alarm now hour minute day_offset label
    let m1 := r.1
    let alarm_id := r.2
    let time_diff :=
      match lookupKey alarm_id m1.alarms with
      | some a => a.time - now
      | none => 0
    let task : TaskHandle := ⟨false, false⟩
    let sched : ScheduledAction := ⟨0, time_diff⟩
    let m2 := { m1 with alarms := setAlarmTask alarm_id (some task) m1.alarms }
    let time_str := twoDigits hour ++ ":" ++ twoDigits minute
    let day_str := format_day_text day_offset
    let response := pyReplace response_success "\x7btime\x7d" time_str
    let response := pyReplace response "\x7bday\x7d" day_str
    let response :=
      match label with
      | some l => pyReplace response "\x7blabel\x7d" l
      | none => pyReplace (pyReplace response "\x7blabel\x7d" "") "\x7blabel\x7d" ""
    (m2, some sched, ⟨ToolAction.RESPONSE, "闹钟已设置: " ++ day_str ++ " " ++ time_str, response⟩)

/-- The timers that the listing loop of `check_timers_alarms` actually
renders (lines 516-530): the active timers returned by `get_timers`, minus
any whose recomputed remaining time is `<= 0` (the `continue` at line 524). -/
def check_listed_timers (m : Manager) (now : Int) : List (String × Timer) :=
  (m.get_timers now).1.filter (fun p => decide (¬ p.2.end_time - now ≤ 0))

/-- The timer branch of `cancel_timer_alarm` (lines 598-614): call
`get_timers` (lazily pruning expired timers) to count the active timers for
the feedback message, cancel, and compose the message.  Returns the manager,
the branch's `result` and the accumulated message. -/
def cancelTimerBranch (m : Manager) (now : Int) (timer_id : Option String)
    (message : String) : Manager × Bool × String :=
  let g := m.get_timers now
  let timer_count := g.1.length
  let c := g.2.1.cancel_timer timer_id
  let message :=
    if c.2 then
      if pyTruthy timer_id then message ++ "已取消1个计时器。"
      else message ++ "已取消所有计时器，共" ++ toString timer_count ++ "个。"
    else if timer_count = 0 then message ++ "没有正在进行的计时器。"
    else message ++ "未找到指定的计时器。"
  (c.1, c.2, message)

/-- The alarm branch of `cancel_timer_alarm` (lines 616-637): count
`get_alarms`, cancel, or the branch's result into the accumulated one, and
compose the message (separated by a space when something precedes it). -/
def cancelAlarmBranch (m1 : Manager) (alarm_id : Option String) (result1 : Bool)
    (message1 : String) : Manager × Bool × String :=
  let alarm_count := m1.get_alarms.length
  let c := m1.cancel_alarm alarm_id
  let result := result1 || c.2
  let message :=
    if c.2 then
      if pyTruthy alarm_id then message1 ++ "已取消1个闹钟。"
      else message1 ++ "已取消所有闹钟，共" ++ toString alarm_count ++ "个。"
    else if alarm_count = 0 then
      (if message1 ≠ "" then message1 ++ " " else message1) ++ "没有设置的闹钟。"
    else
      (if message1 ≠ "" then message1 ++ " " else message1) ++ "未找到指定的闹钟。"
  (c.1, result, message)

/-- `cancel_timer_alarm` (lines 590-658).  Returns the manager after the
call and the `ActionResponse`: the timer branch runs when `cancel_type` is
`'timer'` or `'all'`, the alarm branch when it is `'alarm'` or `'all'`
(starting from `result = False` and an empty message), and the final
response depends on the combined `result`. -/
def cancel_timer_alarm (m : Manager) (now : Int) (cancel_type : String)
    (response_success response_failure : String)
    (timer_id alarm_id : Option String) : Manager × ActionResponse :=
  let step1 : Manager × Bool × String :=
    if cancel_type = "timer" ∨ cancel_type = "all" then
      cancelTimerBranch m now timer_id ""
    else (m, false, "")
  let step2 : Manager × Bool × String :=
    if cancel_type = "alarm" ∨ cancel_type = "all" then
      cancelAlarmBranch step1.1 alarm_id step1.2.1 step1.2.2
    else step1
  if step2.2.1 then (step2.1, ⟨ToolAction.RESPONSE, "取消成功", step2.2.2⟩)
  else (step2.1, ⟨ToolAction.RESPONSE, "没有找到计时器或闹钟", step2.2.2⟩)

example : lookupKey "a" [("a", (1 : Int)), ("b", 2)] = some 1 := by decide
example : eraseKey "a" [("a", (1 : Int)), ("b", 2)] = [("b", 2)] := by decide
example : timerIdGen 100 0 = "timer_100_0" := by decide
example : alarmTargetTime 30000 7 0 0 = 111600 := by decide
example : alarmTargetTime 20000 7 0 0 = 25200 := by decide
example : alarmTargetTime 30000 7 0 1 = 111600 := by decide
example : pyReplace "ab\x7bx\x7dcd" "\x7bx\x7d" "ZZ" = "abZZcd" := by decide
example : format_time_duration 70 = "1分钟10秒" := by decide
example : format_time_duration 3600 = "1小时" := by decide
example : formatClock 25200 = "07:00:00" := by decide

/-- A live (not done, not cancelled) task handle, as saved by the entry
points right after scheduling. -/
def liveHandle : TaskHandle := ⟨false, false⟩

/-- Scenario registry for the cancel-all evaluation: two active timers
(set at second 1000 for 60s and 120s) and one active alarm, observed at
second 1005. -/
def tScn1 : Timer := ⟨60, 1000, 1060, none, some liveHandle⟩

/-- Second scenario timer (120 seconds, labelled). -/
def tScn2 : Timer := ⟨120, 1000, 1120, some "运动", some liveHandle⟩

/-- Scenario alarm (07:00 tomorrow). -/
def aScn1 : Alarm := ⟨7, 0, 1, 93600, none, some liveHandle⟩

/-- The scenario manager: two active timers and one active alarm. -/
def mScn : Manager :=
  ⟨[("timer_1000_0", tScn1), ("timer_1000_1", tScn2)], [("alarm_1000_0", aScn1)]⟩

/-- C1: `cancel_timer(None)` / `cancel_alarm(None)` do remove every entry of
their kind, but the claimed return value — whether the collection was
non-empty before the removal — is computed on the dict *after* `clear()`
(lines 217-218, 237-238) and is therefore always `False`.  Consequently
`cancel_timer_alarm('all')` with two active timers and one active alarm
empties the registry but reports "specified timer/alarm not found" instead of
the counts 2 and 1, and its overall result is the not-found response; the
immediate second call does report that none were active.  This evaluates the
code at the failing input of the claim. -/
theorem cancel_all_scenario_eval :
    (mScn.timers.length = 2 ∧ mScn.alarms.length = 1)
    ∧ ((mScn.cancel_timer none).1.timers = [] ∧ (mScn.cancel_timer none).2 = false)
    ∧ ((mScn.cancel_alarm none).1.alarms = [] ∧ (mScn.cancel_alarm none).2 = false)
    ∧ (cancel_timer_alarm mScn 1005 "all" "s" "f" none none).1.timers = []
    ∧ (cancel_timer_alarm mScn 1005 "all" "s" "f" none none).1.alarms = []
    ∧ (cancel_timer_alarm mScn 1005 "all" "s" "f" none none).2.result = "没有找到计时器或闹钟"
    ∧ (cancel_timer_alarm mScn 1005 "all" "s" "f" none none).2.response
        = "未找到指定的计时器。 未找到指定的闹钟。"
    ∧ (cancel_timer_alarm ⟨[], []⟩ 1005 "all" "s" "f" none none).2.response
        = "没有正在进行的计时器。 没有设置的闹钟。" := by decide

/-- C2: the firing action is *not* scheduled with `max(0, target - now)`
seconds of delay.  `set_timer` at second 1000 with a 60-second duration
submits the firing coroutine to the event loop immediately
(`submit_delay = 0`, from `asyncio.run_coroutine_threadsafe`) while the
spec's delay would be 60; the daemon thread's 60-second sleep paces nothing.
Running the submitted callback at that moment — i.e. at second 1000, before
`end_time = 1060` — finds the entry, delivers the "finished" notification and
removes the entry.  Likewise `set_alarm` for 23:00 at second 30000 of day 0
submits with zero delay instead of the spec's 52800 seconds.  This evaluates
the code at the failing input of the claim. -/
theorem set_timer_schedules_immediately :
    (set_timer (⟨[], []⟩ : Manager) 1000 60 "a" "b" none).2.1 = some ⟨0, 60⟩
    ∧ specEngineDelay (1000 + 60) 1000 = 60
    ∧ (set_timer (⟨[], []⟩ : Manager) 1000 60 "a" "b" none).2.1
        ≠ some ⟨specEngineDelay (1000 + 60) 1000, 60⟩
    ∧ ((1000 : Int) < 1060
       ∧ (timer_callback (set_timer (⟨[], []⟩ : Manager) 1000 60 "a" "b" none).1
            "timer_1000_0" true false).2.delivered = true
       ∧ (timer_callback (set_timer (⟨[], []⟩ : Manager) 1000 60 "a" "b" none).1
            "timer_1000_0" true false).2.removed = true
       ∧ lookupKey "timer_1000_0"
           (timer_callback (set_timer (⟨[], []⟩ : Manager) 1000 60 "a" "b" none).1
             "timer_1000_0" true false).1.timers = none)
    ∧ (set_alarm (⟨[], []⟩ : Manager) 30000 23 0 "a" "b" 0 none).2.1 = some ⟨0, 52800⟩
    ∧ specEngineDelay 82800 30000 = 52800
    ∧ (set_alarm (⟨[], []⟩ : Manager) 30000 23 0 "a" "b" 0 none).2.1
        ≠ some ⟨specEngineDelay 82800 30000, 52800⟩ := by decide

/-- First step of the id-collision trace: one timer added at second 100. -/
def mC7a : Manager := (Manager.add_timer ⟨[], []⟩ 100 60 none).1

/-- Second step: a second timer added within the same second. -/
def mC7b : Manager := (mC7a.add_timer 100 120 none).1

/-- Third step: the first timer cancelled, still within the same second. -/
def mC7c : Manager := (mC7b.cancel_timer (some "timer_100_0")).1

/-- C7: timer ids are `timer_{second}_{len(dict)}`, so they are *not* unique
for the process lifetime.  Adding, adding, cancelling the first and adding
again within the same integer second (second 100 here) generates
`timer_100_1` twice; the repeated id silently overwrites the still-live
120-second timer with the new 30-second one, so the registry still holds one
entry.  This evaluates the code at the failing input of the claim. -/
theorem timer_id_reuse_eval :
    (Manager.add_timer ⟨[], []⟩ 100 60 none).2 = "timer_100_0"
    ∧ (mC7a.add_timer 100 120 none).2 = "timer_100_1"
    ∧ (mC7c.add_timer 100 30 none).2 = "timer_100_1"
    ∧ mC7c.timers.length = 1
    ∧ lookupKey "timer_100_1" mC7c.timers = some ⟨120, 100, 220, none, none⟩
    ∧ (mC7c.add_timer 100 30 none).1.timers.length = 1
    ∧ lookupKey "timer_100_1" (mC7c.add_timer 100 30 none).1.timers
        = some ⟨30, 100, 130, none, none⟩ := by decide

theorem lookupKey_none_iff {α : Type} (k : String) (l : List (String × α)) :
    lookupKey k l = none ↔ ∀ p ∈ l, p.1 ≠ k := by
  induction l with
  | nil => simp [lookupKey]
  | cons hd tl ih =>
    by_cases h : hd.1 = k <;> simp [lookupKey, h, ih]

theorem mem_eraseKey {α : Type} (k : String) (l : List (String × α)) (p : String × α) :
    p ∈ eraseKey k l ↔ p ∈ l ∧ p.1 ≠ k := by
  simp [eraseKey, List.mem_filter]

theorem eraseKey_of_lookup_none {α : Type} (k : String) (l : List (String × α))
    (h : lookupKey k l = none) : eraseKey k l = l := by
  rw [lookupKey_none_iff] at h
  rw [eraseKey, List.filter_eq_self]
  intro p hp
  simpa using h p hp

theorem lookupKey_eraseKey_self {α : Type} (k : String) (l : List (String × α)) :
    lookupKey k (eraseKey k l) = none := by
  rw [lookupKey_none_iff]
  intro p hp
  exact ((mem_eraseKey k l p).mp hp).2

theorem containsKey_false_of_lookup_none {α : Type} (k : String) (l : List (String × α))
    (h : lookupKey k l = none) : containsKey k l = false := by
  rw [lookupKey_none_iff] at h
  simp only [containsKey, List.any_eq_false, decide_eq_true_eq]
  exact h

theorem setKey_of_lookup_none {α : Type} (k : String) (v : α) (l : List (String × α))
    (h : lookupKey k l = none) : setKey k v l = l ++ [(k, v)] := by
  rw [setKey, containsKey_false_of_lookup_none k l h]
  simp

theorem setTimerTask_append_fresh (k : String) (tk : Option TaskHandle)
    (l : List (String × Timer)) (e : Timer) (h : ∀ p ∈ l, p.1 ≠ k) :
    setTimerTask k tk (l ++ [(k, e)]) = l ++ [(k, { e with task := tk })] := by
  induction l with
  | nil => simp [setTimerTask]
  | cons hd tl ih =>
    have h1 : hd.1 ≠ k := h hd (by simp)
    have h2 : ∀ p ∈ tl, p.1 ≠ k := fun p hp => h p (by simp [hp])
    simp only [setTimerTask, List.map_cons, List.cons_append, if_neg h1] at ih ⊢
    rw [ih h2]

theorem setAlarmTask_append_fresh (k : String) (tk : Option TaskHandle)
    (l : List (String × Alarm)) (e : Alarm) (h : ∀ p ∈ l, p.1 ≠ k) :
    setAlarmTask k tk (l ++ [(k, e)]) = l ++ [(k, { e with task := tk })] := by
  induction l with
  | nil => simp [setAlarmTask]
  | cons hd tl ih =>
    have h1 : hd.1 ≠ k := h hd (by simp)
    have h2 : ∀ p ∈ tl, p.1 ≠ k := fun p hp => h p (by simp [hp])
    simp only [setAlarmTask, List.map_cons, List.cons_append, if_neg h1] at ih ⊢
    rw [ih h2]

theorem pruneScan_fst (now : Int) (l : List (String × Timer)) :
    (pruneScan now l).1 = l.filter (fun p => decide (p.2.end_time > now)) := by
  induction l with
  | nil => rfl
  | cons hd tl ih =>
    simp only [pruneScan, List.filter_cons]
    by_cases h : hd.2.end_time > now
    · simp [h, ih]
    · simp [h, ih]

theorem pruneScan_snd (now : Int) (l : List (String × Timer)) :
    (pruneScan now l).2
      = (l.filter (fun p => decide (¬ p.2.end_time > now))).map
          (fun p => (p.1, { p.2 with task := cancelHandle p.2.task })) := by
  induction l with
  | nil => rfl
  | cons hd tl ih =>
    simp only [pruneScan, List.filter_cons]
    by_cases h : hd.2.end_time > now
    · simp [h, ih]
    · simp [h, ih]

theorem get_timers_fst (m : Manager) (now : Int) :
    (m.get_timers now).1 = m.timers.filter (fun p => decide (p.2.end_time > now)) :=
  pruneScan_fst now m.timers

theorem get_timers_timers (m : Manager) (now : Int) :
    (m.get_timers now).2.1.timers = m.timers.filter (fun p => decide (p.2.end_time > now)) :=
  pruneScan_fst now m.timers

theorem get_timers_alarms (m : Manager) (now : Int) :
    (m.get_timers now).2.1.alarms = m.alarms := rfl

theorem cancel_timer_some_timers (m : Manager) (tid : String) :
    (m.cancel_timer (some tid)).1.timers = eraseKey tid m.timers := by
  rw [Manager.cancel_timer]
  cases h : lookupKey tid m.timers with
  | none => simp [eraseKey_of_lookup_none tid m.timers h]
  | some t => rfl

theorem cancel_timer_none_timers (m : Manager) :
    (m.cancel_timer none).1.timers = [] := rfl

theorem cancel_timer_alarms (m : Manager) (x : Option String) :
    (m.cancel_timer x).1.alarms = m.alarms := by
  cases x with
  | none => rfl
  | some tid => cases h : lookupKey tid m.timers <;> simp [Manager.cancel_timer, h]

theorem cancel_alarm_some_alarms (m : Manager) (aid : String) :
    (m.cancel_alarm (some aid)).1.alarms = eraseKey aid m.alarms := by
  rw [Manager.cancel_alarm]
  cases h : lookupKey aid m.alarms with
  | none => simp [eraseKey_of_lookup_none aid m.alarms h]
  | some a => rfl

theorem cancel_alarm_none_alarms (m : Manager) :
    (m.cancel_alarm none).1.alarms = [] := rfl

theorem cancel_alarm_timers (m : Manager) (x : Option String) :
    (m.cancel_alarm x).1.timers = m.timers := by
  cases x with
  | none => rfl
  | some aid => cases h : lookupKey aid m.alarms <;> simp [Manager.cancel_alarm, h]

/-- C4: for every valid hour (0-23) and minute (0-59) and non-negative day
offset, `add_alarm` stores an alarm whose `time` is `alarmTargetTime`, i.e.
combine(today + day_offset, hour:minute); when `day_offset = 0` and that
instant is strictly in the past relative to now, the target moves forward by
exactly one day (86400 seconds); when it is not in the past it stays; and for
`day_offset > 0` no rollover occurs even if the time-of-day has passed. -/
theorem add_alarm_rollover_exact_day (now hour minute day_offset : Int)
    (h1 : 0 ≤ hour) (h2 : hour ≤ 23) (h3 : 0 ≤ minute) (h4 : minute ≤ 59)
    (h5 : 0 ≤ day_offset) :
    (∀ (m : Manager) (label : Option String),
        ((m.add_alarm now hour minute day_offset label).1).alarms
          = setKey (alarmIdGen now m.alarms.length)
              ⟨hour, minute, day_offset, alarmTargetTime now hour minute day_offset, label, none⟩
              m.alarms)
    ∧ (day_offset = 0 → combine (dateOf now) hour minute < now →
        alarmTargetTime now hour minute day_offset = combine (dateOf now) hour minute + 86400)
    ∧ (day_offset = 0 → ¬ combine (dateOf now) hour minute < now →
        alarmTargetTime now hour minute day_offset = combine (dateOf now) hour minute)
    ∧ (0 < day_offset →
        alarmTargetTime now hour minute day_offset
          = combine (dateOf now + day_offset) hour minute) := by
  refine ⟨fun m label => rfl, ?_, ?_, ?_⟩
  · intro hd hlt
    simp only [alarmTargetTime, combine] at *
    split_ifs with hc <;> omega
  · intro hd hlt
    simp only [alarmTargetTime, combine] at *
    split_ifs with hc <;> omega
  · intro hd
    simp only [alarmTargetTime, combine] at *
    split_ifs with hc <;> omega

/-- Witness for C4 at concrete inputs: at second 30000 of day 0 (08:20), an
alarm for 07:00 with `day_offset = 0` rolls to tomorrow 07:00 (25200 +
86400), and with `day_offset = 1` it lands on tomorrow 07:00 without
rollover. -/
theorem add_alarm_rollover_exact_day_witness :
    alarmTargetTime 30000 7 0 0 = combine (dateOf 30000) 7 0 + 86400
    ∧ alarmTargetTime 30000 7 0 1 = combine (dateOf 30000 + 1) 7 0 := by
  constructor
  · exact (add_alarm_rollover_exact_day 30000 7 0 0 (by decide) (by decide) (by decide)
      (by decide) (by decide)).2.1 rfl (by decide)
  · exact (add_alarm_rollover_exact_day 30000 7 0 1 (by decide) (by decide) (by decide)
      (by decide) (by decide)).2.2.2 (by decide)

/-- C5: when the generated id is fresh (as dict-size-based generation
intends), `set_timer` with `duration > 0` appends exactly one timer entry
whose `end_time - start_time` equals the duration, leaves the alarms alone,
and returns the success response; with `duration <= 0` it changes nothing,
schedules nothing, and returns the fixed validation-error response. -/
theorem set_timer_validation (m : Manager) (now duration : Int)
    (rs rf : String) (label : Option String)
    (hfresh : lookupKey (timerIdGen now m.timers.length) m.timers = none) :
    (0 < duration →
        (set_timer m now duration rs rf label).1.timers
          = m.timers ++ [(timerIdGen now m.timers.length,
              ⟨duration, now, now + duration, label, some liveHandle⟩)]
        ∧ (set_timer m now duration rs rf label).1.timers.length = m.timers.length + 1
        ∧ ((now + duration) - now = duration)
        ∧ (set_timer m now duration rs rf label).1.alarms = m.alarms
        ∧ (set_timer m now duration rs rf label).2.1 = some ⟨0, duration⟩
        ∧ (set_timer m now duration rs rf label).2.2.result
            = "计时器已设置: " ++ format_time_duration duration)
    ∧ (duration ≤ 0 →
        (set_timer m now duration rs rf label).1 = m
        ∧ (set_timer m now duration rs rf label).2.1 = none
        ∧ (set_timer m now duration rs rf label).2.2.result = "无效的持续时间"
        ∧ (set_timer m now duration rs rf label).2.2.response = "计时器的持续时间必须大于0秒。") := by
  constructor
  · intro hpos
    have hne : ¬ duration ≤ 0 := not_le.mpr hpos
    have hfr : ∀ p ∈ m.timers, p.1 ≠ timerIdGen now m.timers.length :=
      (lookupKey_none_iff _ _).mp hfresh
    have htimers : (set_timer m now duration rs rf label).1.timers
        = m.timers ++ [(timerIdGen now m.timers.length,
            ⟨duration, now, now + duration, label, some liveHandle⟩)] := by
      simp only [set_timer, if_neg hne, Manager.add_timer,
        setKey_of_lookup_none _ _ _ hfresh]
      exact setTimerTask_append_fresh _ _ _ _ hfr
    refine ⟨htimers, ?_, by ring, ?_, ?_, ?_⟩
    · rw [htimers]; simp
    · simp only [set_timer, if_neg hne, Manager.add_timer]
    · simp only [set_timer, if_neg hne]
    · simp only [set_timer, if_neg hne]
  · intro hle
    refine ⟨?_, ?_, ?_, ?_⟩ <;> simp only [set_timer, if_pos hle]

/-- Witness for C5: on the empty registry at second 1000, `set_timer 60`
yields one entry and `set_timer (-5)` leaves the registry empty. -/
theorem set_timer_validation_witness :
    (set_timer (⟨[], []⟩ : Manager) 1000 60 "a" "b" none).1.timers.length
        = (⟨[], []⟩ : Manager).timers.length + 1
    ∧ (set_timer (⟨[], []⟩ : Manager) 1000 (-5) "a" "b" none).1 = (⟨[], []⟩ : Manager) :=
  ⟨((set_timer_validation ⟨[], []⟩ 1000 60 "a" "b" none (by decide)).1 (by decide)).2.1,
   ((set_timer_validation ⟨[], []⟩ 1000 (-5) "a" "b" none (by decide)).2 (by decide)).1⟩

/-- C6: `get_timers` returns exactly the timers whose `end_time` is still in
the future at the time of the call, installs exactly those back into the
registry (alarms untouched), and every timer found expired during the scan is
removed, with its task handle cancelled whenever a handle exists and has not
fired; consequently the timers listed by `check_timers_alarms('timer')` all
have `end_time` in the future. -/
theorem get_timers_lazy_pruning (m : Manager) (now : Int) :
    ((m.get_timers now).1 = m.timers.filter (fun p => decide (p.2.end_time > now)))
    ∧ ((m.get_timers now).2.1.timers = (m.get_timers now).1)
    ∧ ((m.get_timers now).2.1.alarms = m.alarms)
    ∧ (∀ p ∈ (m.get_timers now).1, p.2.end_time > now)
    ∧ ((m.get_timers now).2.2
        = (m.timers.filter (fun p => decide (¬ p.2.end_time > now))).map
            (fun p => (p.1, { p.2 with task := cancelHandle p.2.task })))
    ∧ (∀ p ∈ (m.get_timers now).2.2, p.2.end_time ≤ now)
    ∧ (∀ p ∈ (m.get_timers now).2.2, ∀ tk, p.2.task = some tk →
        tk.done = true ∨ tk.cancelled = true)
    ∧ (∀ p ∈ check_listed_timers m now, p.2.end_time > now) := by
  have hfst := get_timers_fst m now
  have hsnd : (m.get_timers now).2.2
      = (m.timers.filter (fun p => decide (¬ p.2.end_time > now))).map
          (fun p => (p.1, { p.2 with task := cancelHandle p.2.task })) :=
    pruneScan_snd now m.timers
  refine ⟨hfst, rfl, rfl, ?_, hsnd, ?_, ?_, ?_⟩
  · intro p hp
    rw [hfst] at hp
    have := (List.mem_filter.mp hp).2
    simpa using this
  · intro p hp
    rw [hsnd] at hp
    obtain ⟨q, hq, hqe⟩ := List.mem_map.mp hp
    have := (List.mem_filter.mp hq).2
    rw [← hqe]
    simp only [decide_eq_true_eq, not_lt] at this ⊢
    exact this
  · intro p hp tk htk
    rw [hsnd] at hp
    obtain ⟨q, hq, hqe⟩ := List.mem_map.mp hp
    rw [← hqe] at htk
    simp only at htk
    cases hq2 : q.2.task with
    | none => rw [hq2] at htk; simp [cancelHandle] at htk
    | some tk0 =>
      rw [hq2] at htk
      by_cases hd : tk0.done
      · simp [cancelHandle, hd] at htk
        left; rw [← htk]; exact hd
      · simp [cancelHandle, hd] at htk
        right; rw [← htk]
  · intro p hp
    have hp1 := (List.mem_filter.mp hp).1
    rw [hfst] at hp1
    have := (List.mem_filter.mp hp1).2
    simpa using this

/-- Active timer used by concrete witnesses (ends at second 500). -/
def tAct6 : Timer := ⟨500, 0, 500, none, some liveHandle⟩

/-- Expired timer used by concrete witnesses (ended at second 10). -/
def tExp6 : Timer := ⟨10, 0, 10, none, some liveHandle⟩

/-- Witness registry for the lazy-pruning theorem: one active and one
expired timer, observed at second 100. -/
def mW6 : Manager := ⟨[("wa6", tAct6), ("we6", tExp6)], []⟩

/-- The expired witness timer as it appears in the prune scan's removal
list: handle cancelled. -/
def tExp6c : Timer := ⟨10, 0, 10, none, some ⟨false, true⟩⟩

/-- Witness for C6: at second 100, the kept entry is in the future and the
pruned entry had already elapsed. -/
theorem get_timers_lazy_pruning_witness :
    tAct6.end_time > 100 ∧ tExp6c.end_time ≤ 100 :=
  ⟨(get_timers_lazy_pruning mW6 100).2.2.2.1 ("wa6", tAct6) (by decide),
   (get_timers_lazy_pruning mW6 100).2.2.2.2.2.1 ("we6", tExp6c) (by decide)⟩

/-- C8: cancelling by an id that is present removes exactly that entry
(every other entry keeps its place and value), leaves the other collection
untouched, and returns found (`True`); cancelling an absent id — including an
already-cancelled or already-fired, hence already-removed, one — changes
nothing and returns `False`.  Both cases are ordinary return paths of the
total functions `cancel_timer`/`cancel_alarm`: no exception is raised. -/
theorem cancel_by_id_exact (m : Manager) (tid aid : String) :
    ((m.cancel_timer (some tid)).2 = (lookupKey tid m.timers).isSome
      ∧ (m.cancel_timer (some tid)).1.alarms = m.alarms
      ∧ ((lookupKey tid m.timers).isSome →
          (m.cancel_timer (some tid)).1.timers = eraseKey tid m.timers)
      ∧ (lookupKey tid m.timers = none → (m.cancel_timer (some tid)) = (m, false))
      ∧ (∀ p ∈ m.timers, p.1 ≠ tid → p ∈ (m.cancel_timer (some tid)).1.timers)
      ∧ (∀ p ∈ (m.cancel_timer (some tid)).1.timers, p ∈ m.timers))
    ∧ ((m.cancel_alarm (some aid)).2 = (lookupKey aid m.alarms).isSome
      ∧ (m.cancel_alarm (some aid)).1.timers = m.timers
      ∧ ((lookupKey aid m.alarms).isSome →
          (m.cancel_alarm (some aid)).1.alarms = eraseKey aid m.alarms)
      ∧ (lookupKey aid m.alarms = none → (m.cancel_alarm (some aid)) = (m, false))
      ∧ (∀ p ∈ m.alarms, p.1 ≠ aid → p ∈ (m.cancel_alarm (some aid)).1.alarms)
      ∧ (∀ p ∈ (m.cancel_alarm (some aid)).1.alarms, p ∈ m.alarms)) := by
  constructor
  · cases h : lookupKey tid m.timers with
    | none =>
      refine ⟨by simp [Manager.cancel_timer, h], by simp [Manager.cancel_timer, h],
        by simp [h], fun _ => by simp [Manager.cancel_timer, h], ?_, ?_⟩
      · intro p hp _
        simpa [Manager.cancel_timer, h] using hp
      · intro p hp
        simpa [Manager.cancel_timer, h] using hp
    | some t =>
      refine ⟨by simp [Manager.cancel_timer, h], by simp [Manager.cancel_timer, h],
        fun _ => by simp [Manager.cancel_timer, h], by simp [h], ?_, ?_⟩
      · intro p hp hne
        simp only [Manager.cancel_timer, h]
        exact (mem_eraseKey tid m.timers p).mpr ⟨hp, hne⟩
      · intro p hp
        simp only [Manager.cancel_timer, h] at hp
        exact ((mem_eraseKey tid m.timers p).mp hp).1
  · cases h : lookupKey aid m.alarms with
    | none =>
      refine ⟨by simp [Manager.cancel_alarm, h], by simp [Manager.cancel_alarm, h],
        by simp [h], fun _ => by simp [Manager.cancel_alarm, h], ?_, ?_⟩
      · intro p hp _
        simpa [Manager.cancel_alarm, h] using hp
      · intro p hp
        simpa [Manager.cancel_alarm, h] using hp
    | some a =>
      refine ⟨by simp [Manager.cancel_alarm, h], by simp [Manager.cancel_alarm, h],
        fun _ => by simp [Manager.cancel_alarm, h], by simp [h], ?_, ?_⟩
      · intro p hp hne
        simp only [Manager.cancel_alarm, h]
        exact (mem_eraseKey aid m.alarms p).mpr ⟨hp, hne⟩
      · intro p hp
        simp only [Manager.cancel_alarm, h] at hp
        exact ((mem_eraseKey aid m.alarms p).mp hp).1

/-- Witness registry for C8: two timers and one alarm. -/
def mW8 : Manager := ⟨[("w1", tAct6), ("w2", tExp6)], [("wa", aScn1)]⟩

/-- Witness for C8: cancelling the present id `w1` erases exactly it;
cancelling the absent id `nope` is a no-op returning `False`. -/
theorem cancel_by_id_exact_witness :
    (mW8.cancel_timer (some "w1")).1.timers = eraseKey "w1" mW8.timers
    ∧ (mW8.cancel_timer (some "nope")) = (mW8, false) :=
  ⟨(cancel_by_id_exact mW8 "w1" "wa").1.2.2.1 (by decide),
   (cancel_by_id_exact mW8 "nope" "wa").1.2.2.2.1 (by decide)⟩

/-- C9: when the firing callback runs with the entry still present but the
connection has no truthy `websocket` attribute, the delivery block is
skipped entirely — nothing is sent and nothing is routed into the
conversational turn — yet the `del` still executes: the entry disappears
from the registry without the user being notified. -/
theorem callback_no_websocket_silent (m : Manager) (tid aid : String) (b b' : Bool) :
    ((lookupKey tid m.timers).isSome →
        (timer_callback m tid false b).1.timers = eraseKey tid m.timers
        ∧ (timer_callback m tid false b).1.alarms = m.alarms
        ∧ (timer_callback m tid false b).2.delivered = false
        ∧ (timer_callback m tid false b).2.routed = false
        ∧ (timer_callback m tid false b).2.removed = true
        ∧ lookupKey tid (timer_callback m tid false b).1.timers = none)
    ∧ ((lookupKey aid m.alarms).isSome →
        (alarm_callback m aid false b').1.alarms = eraseKey aid m.alarms
        ∧ (alarm_callback m aid false b').1.timers = m.timers
        ∧ (alarm_callback m aid false b').2.delivered = false
        ∧ (alarm_callback m aid false b').2.routed = false
        ∧ (alarm_callback m aid false b').2.removed = true
        ∧ lookupKey aid (alarm_callback m aid false b').1.alarms = none) := by
  constructor
  · intro hs
    cases h : lookupKey tid m.timers with
    | none => rw [h] at hs; simp at hs
    | some t =>
      refine ⟨by simp [timer_callback, h], by simp [timer_callback, h],
        by simp [timer_callback, h], by simp [timer_callback, h],
        by simp [timer_callback, h], ?_⟩
      simp only [timer_callback, h]
      exact lookupKey_eraseKey_self tid m.timers
  · intro hs
    cases h : lookupKey aid m.alarms with
    | none => rw [h] at hs; simp at hs
    | some a =>
      refine ⟨by simp [alarm_callback, h], by simp [alarm_callback, h],
        by simp [alarm_callback, h], by simp [alarm_callback, h],
        by simp [alarm_callback, h], ?_⟩
      simp only [alarm_callback, h]
      exact lookupKey_eraseKey_self aid m.alarms

/-- Witness registry for C9: one timer and one alarm. -/
def mW9 : Manager := ⟨[("t9", tScn1)], [("a9", aScn1)]⟩

/-- Witness for C9: with no websocket, the timer entry is removed while
nothing was delivered or routed. -/
theorem callback_no_websocket_silent_witness :
    (timer_callback mW9 "t9" false false).2.removed = true
    ∧ (timer_callback mW9 "t9" false false).2.delivered = false
    ∧ (alarm_callback mW9 "a9" false false).2.removed = true :=
  ⟨((callback_no_websocket_silent mW9 "t9" "a9" false false).1 (by decide)).2.2.2.2.1,
   ((callback_no_websocket_silent mW9 "t9" "a9" false false).1 (by decide)).2.2.1,
   ((callback_no_websocket_silent mW9 "t9" "a9" false false).2 (by decide)).2.2.2.2.1⟩

/-- Registry used by the C3 counterexample and witness: one timer and one
alarm, both live. -/
def mC3 : Manager := ⟨[("t1", tScn1)], [("a1", aScn1)]⟩

/-- C3 counterexample: with the entry present and delivery raising, the
exception is caught at the callback boundary (`errorCaught`, it does not
propagate), but the Registry entry is NOT removed — the `del` sits after the
delivery inside the same `try`, so it is skipped — refuting the claim's
"the Registry entry is still removed". -/
theorem callback_raise_keeps_entry_cex :
    (timer_callback mC3 "t1" true true).2.errorCaught = true
    ∧ (timer_callback mC3 "t1" true true).2.removed = false
    ∧ lookupKey "t1" (timer_callback mC3 "t1" true true).1.timers = some tScn1
    ∧ (alarm_callback mC3 "a1" true true).2.errorCaught = true
    ∧ (alarm_callback mC3 "a1" true true).2.removed = false
    ∧ lookupKey "a1" (alarm_callback mC3 "a1" true true).1.alarms = some aScn1 := by decide

/-- C3 amended: for every firing-callback invocation whose entry still
exists, if delivering the notification raises, the exception is caught and
logged at the callback boundary and does not propagate (the callback returns
normally), but the Registry entry is NOT removed: the registry is left
exactly as it was, because removal follows delivery inside the same
protected block. -/
theorem callback_delivery_failure_caught (m : Manager) (tid aid : String) :
    ((lookupKey tid m.timers).isSome →
        (timer_callback m tid true true).1 = m
        ∧ (timer_callback m tid true true).2.errorCaught = true
        ∧ (timer_callback m tid true true).2.delivered = false
        ∧ (timer_callback m tid true true).2.removed = false)
    ∧ ((lookupKey aid m.alarms).isSome →
        (alarm_callback m aid true true).1 = m
        ∧ (alarm_callback m aid true true).2.errorCaught = true
        ∧ (alarm_callback m aid true true).2.delivered = false
        ∧ (alarm_callback m aid true true).2.removed = false) := by
  constructor
  · intro hs
    cases h : lookupKey tid m.timers with
    | none => rw [h] at hs; simp at hs
    | some t =>
      exact ⟨by simp [timer_callback, h], by simp [timer_callback, h],
        by simp [timer_callback, h], by simp [timer_callback, h]⟩
  · intro hs
    cases h : lookupKey aid m.alarms with
    | none => rw [h] at hs; simp at hs
    | some a =>
      exact ⟨by simp [alarm_callback, h], by simp [alarm_callback, h],
        by simp [alarm_callback, h], by simp [alarm_callback, h]⟩

/-- Witness for the amended C3: on the concrete registry, the failing timer
delivery leaves the registry unchanged with the error caught. -/
theorem callback_delivery_failure_caught_witness :
    (timer_callback mC3 "t1" true true).1 = mC3
    ∧ (timer_callback mC3 "t1" true true).2.errorCaught = true
    ∧ (alarm_callback mC3 "a1" true true).1 = mC3 :=
  ⟨((callback_delivery_failure_caught mC3 "t1" "a1").1 (by decide)).1,
   ((callback_delivery_failure_caught mC3 "t1" "a1").1 (by decide)).2.1,
   ((callback_delivery_failure_caught mC3 "t1" "a1").2 (by decide)).1⟩

/-- Expired timer of the C10 counterexample registry (ended at second 10,
observed at second 100). -/
def tA10 : Timer := ⟨10, 0, 10, none, some liveHandle⟩

/-- Active timer of the C10 counterexample registry. -/
def tB10 : Timer := ⟨500, 0, 500, none, some liveHandle⟩

/-- The timer whose id is passed to `cancel_timer_alarm` in the C10
counterexample. -/
def tC10 : Timer := ⟨600, 0, 600, none, some liveHandle⟩

/-- Alarm of the C10 counterexample registry. -/
def aX10 : Alarm := ⟨7, 0, 1, 111600, none, some liveHandle⟩

/-- C10 counterexample registry: an expired timer `ta`, two active timers
`tb`, `tc`, and one alarm. -/
def mC10 : Manager := ⟨[("ta", tA10), ("tb", tB10), ("tc", tC10)], [("ax", aX10)]⟩

/-- C10 counterexample: `cancel_timer_alarm('all')` with only
`timer_id='tc'` does not leave "all other timers" in the Registry: the
expired timer `ta` (distinct from the specified `tc`) is also removed,
pruned by the `get_timers` status check the function performs first.  The
unexpired other timer `tb` does remain, and every alarm is removed. -/
theorem cancel_all_with_timer_id_cex :
    ("ta", tA10) ∈ mC10.timers
    ∧ "ta" ≠ "tc"
    ∧ lookupKey "ta" (cancel_timer_alarm mC10 100 "all" "s" "f" (some "tc") none).1.timers = none
    ∧ lookupKey "tc" (cancel_timer_alarm mC10 100 "all" "s" "f" (some "tc") none).1.timers = none
    ∧ lookupKey "tb" (cancel_timer_alarm mC10 100 "all" "s" "f" (some "tc") none).1.timers
        = some tB10
    ∧ (cancel_timer_alarm mC10 100 "all" "s" "f" (some "tc") none).1.alarms = [] := by decide

theorem cancel_all_registry_shape (m : Manager) (now : Int) (rs rf : String)
    (tid aid : Option String) :
    (cancel_timer_alarm m now "all" rs rf tid aid).1
      = (((m.get_timers now).2.1.cancel_timer tid).1.cancel_alarm aid).1 := by
  simp only [cancel_timer_alarm, String.reduceEq, or_true, if_true]
  split <;> rfl

/-- C10 amended: `cancel_timer_alarm` with `cancel_type='all'` and only a
`timer_id` removes the specified timer among the *unexpired* timers — every
other unexpired timer remains, while timers already expired at call time are
pruned as a side effect of the status check — and removes every alarm;
symmetrically, with only an `alarm_id` it removes all timers and exactly the
specified alarm (alarms are not pruned by expiry). -/
theorem cancel_all_with_id_semantics (m : Manager) (now : Int) (rs rf : String)
    (tid aid : String) :
    ((cancel_timer_alarm m now "all" rs rf (some tid) none).1.timers
        = eraseKey tid (m.timers.filter (fun p => decide (p.2.end_time > now))))
    ∧ ((cancel_timer_alarm m now "all" rs rf (some tid) none).1.alarms = [])
    ∧ ((cancel_timer_alarm m now "all" rs rf none (some aid)).1.timers = [])
    ∧ ((cancel_timer_alarm m now "all" rs rf none (some aid)).1.alarms
        = eraseKey aid m.alarms) := by
  refine ⟨?_, ?_, ?_, ?_⟩
  · rw [cancel_all_registry_shape, cancel_alarm_timers, cancel_timer_some_timers,
      get_timers_timers]
  · rw [cancel_all_registry_shape, cancel_alarm_none_alarms]
  · rw [cancel_all_registry_shape, cancel_alarm_timers, cancel_timer_none_timers]
  · rw [cancel_all_registry_shape, cancel_alarm_some_alarms, cancel_timer_alarms,
      get_timers_alarms]
